import Mathlib

/-!
Verification of the headless-browser scraping engine of the
Reloadthegraphicsbot repository (`scraper.py`, `data_manager.py`).

The Python code is shallowly embedded: every pure decision (the ad-blocking
predicate, the popup check, the redirect-retry condition, the dummy scrape
results, the tiered server-priority search, the user-data store) is
translated into an executable Lean function, and the effectful control flow
of each scraping operation is embedded as a function from an explicit
failure-injection environment to a result paired with a trace of
resource-lifecycle events.  Exceptions raised by the browser layer are the
environment's injections; the `try`/`except`/`finally` structure of the
source is mirrored by the case analysis of each embedded operation.
-/

/-- Substring containment, the meaning of Python's `needle in haystack`
for strings: `containsSub hay nee` is true when `nee` occurs contiguously
inside `hay`. -/
def containsSub (hay nee : String) : Bool :=
  decide (nee.data <:+: hay.data)

/-- Prefix test, the meaning of Python's `s.startswith(pre)`. -/
def startsWithStr (s pre : String) : Bool :=
  decide (pre.data <+: s.data)

/-- The static ad/tracker denylist `AD_DOMAINS_PATTERNS` of `scraper.py`
(lines 12-19), verbatim. -/
def AD_DOMAINS_PATTERNS : List String :=
  ["doubleclick.net", "googleadservices.com", "googlesyndication.com",
   "adservice.google.com", ".cloudfront.net/ads", "adform.net", "adsrvr.org",
   "popads.net", "yllix.com", "propellerads.com", "adsterra.com",
   "onclickads.net", " ट्रैफिकjunky.com", "exoclick.com", "ero-advertising.com",
   "juicyads.com", "plugrush.com", "bongacams.com", "chaturbate.com"]

/-- The resource types gated by the request filter (`scraper.py` line 27). -/
def blockedResourceTypes : List String :=
  ["image", "script", "iframe", "media", "websocket"]

/-- Outcome of the request interceptor: the request is either aborted or
allowed to continue. -/
inductive RouteAction
  | abort
  | cont
deriving DecidableEq

/-- Embedding of `block_ads_route` (`scraper.py` lines 21-44): abort when
the resource type is in the gated set and the URL contains a denylist
entry; otherwise continue.  Errors raised by `route.abort()` or
`route.continue_()` are swallowed in the source and do not alter which
action was chosen, so the embedding returns the chosen action directly. -/
def block_ads_route (resourceType url : String) : RouteAction :=
  if blockedResourceTypes.contains resourceType
      && AD_DOMAINS_PATTERNS.any (fun pattern => containsSub url pattern) then
    RouteAction.abort
  else
    RouteAction.cont

/-- Exceptions of the embedded browser layer. -/
inductive PyErr
  | timeout
  | generic
deriving DecidableEq

/-- Observable actions of the popup handler. -/
inductive PopupEv
  | closeAttempt
deriving DecidableEq

/-- Embedding of `handle_popup` (`scraper.py` lines 75-90): a newly opened
page whose URL contains a denylist entry is closed (any error from the
close, injected via `closeRaises`, is swallowed); any other page is left
untouched.  The `Except` return type records that the handler itself never
propagates an error. -/
def handle_popup (popupUrl : String) (closeRaises : Bool) : Except PyErr (List PopupEv) :=
  if AD_DOMAINS_PATTERNS.any (fun pattern => containsSub popupUrl pattern) then
    if closeRaises then
      Except.ok [PopupEv.closeAttempt]
    else
      Except.ok [PopupEv.closeAttempt]
  else
    Except.ok []

/-- Claim C4: a request is aborted if and only if its resource type is one
of image, script, iframe, media, websocket and its URL contains an entry
of the static ad-domain denylist; in every other case — in particular
resource type "document", even with a denylisted substring in the URL —
the request continues unmodified. -/
theorem block_ads_route_abort_iff (resourceType url : String) :
    (block_ads_route resourceType url = RouteAction.abort ↔
      (resourceType ∈ blockedResourceTypes ∧
        ∃ pattern ∈ AD_DOMAINS_PATTERNS, pattern.data <:+: url.data)) ∧
    block_ads_route "document" url = RouteAction.cont := by
  constructor
  · unfold block_ads_route
    split
    · rename_i h
      simp only [Bool.and_eq_true, List.elem_iff, List.any_eq_true,
        containsSub, decide_eq_true_eq] at h
      simpa using h
    · rename_i h
      constructor
      · intro hc
        cases hc
      · rintro ⟨hmem, p, hp, hsub⟩
        exfalso
        apply h
        simp only [Bool.and_eq_true, List.elem_iff, List.any_eq_true,
          containsSub, decide_eq_true_eq]
        exact ⟨by simpa using hmem, p, hp, by simpa using hsub⟩
  · unfold block_ads_route
    have hdoc : blockedResourceTypes.contains "document" = false := by decide
    rw [hdoc, Bool.false_and]
    simp

/-- Claim C6: the popup handler never propagates an error; it attempts to
close the new page exactly when the page URL contains a denylist entry
(close errors are swallowed), and takes no action at all — leaving the
page open and untouched — exactly when no denylist entry matches. -/
theorem handle_popup_close_iff (popupUrl : String) (closeRaises : Bool) :
    ∃ tr, handle_popup popupUrl closeRaises = Except.ok tr ∧
      (PopupEv.closeAttempt ∈ tr ↔
        ∃ pattern ∈ AD_DOMAINS_PATTERNS, pattern.data <:+: popupUrl.data) ∧
      (tr = [] ↔ ¬ ∃ pattern ∈ AD_DOMAINS_PATTERNS, pattern.data <:+: popupUrl.data) := by
  unfold handle_popup
  by_cases h : AD_DOMAINS_PATTERNS.any (fun pattern => containsSub popupUrl pattern) = true
  · refine ⟨[PopupEv.closeAttempt], ?_, ?_, ?_⟩
    · cases closeRaises <;> simp [h]
    · simp only [List.any_eq_true, containsSub, decide_eq_true_eq] at h
      simpa using h
    · simp only [List.any_eq_true, containsSub, decide_eq_true_eq] at h
      simpa using h
  · refine ⟨[], ?_, ?_, ?_⟩
    · simp [h]
    · simp only [List.any_eq_true, containsSub, decide_eq_true_eq] at h
      push_neg at h
      simp only [List.not_mem_nil, false_iff, not_exists]
      rintro p ⟨hp, hsub⟩
      exact absurd hsub (h p hp)
    · simp only [List.any_eq_true, containsSub, decide_eq_true_eq] at h
      push_neg at h
      simp only [true_iff, not_exists]
      rintro p ⟨hp, hsub⟩
      exact absurd hsub (h p hp)

/-- Resource-lifecycle events observable during a scraping operation.
`sid` identifies the browser session (one per `get_playwright_page` call);
`attemptStart n` marks the start of iteration `n` of the search retry
loop; `examine t j` marks the server-resolution code examining identifier
`j` of priority tier `t`. -/
inductive Ev
  | pwStart (sid : Nat)
  | browserLaunch (sid : Nat)
  | contextNew (sid : Nat)
  | routeInstall (sid : Nat)
  | popupListenerInstall (sid : Nat)
  | pageNew (sid : Nat)
  | contextClose (sid : Nat)
  | browserClose (sid : Nat)
  | attemptStart (n : Nat)
  | examine (tier ident : Nat)
deriving DecidableEq

/-- Injection point for a failure inside `get_playwright_page`: which of
its awaited steps raises.  Steps before the failing one have already run
(and their resources are live); the caller's tuple assignment never
happens, so those resources are unreachable from the caller. -/
inductive AcqFail
  | atStart
  | atLaunch
  | atNewContext
  | atRoute
  | atNewPage
deriving DecidableEq

/-- Event trace of a fully successful `get_playwright_page` call
(`scraper.py` lines 47-93): start the driver, launch the browser, create
the context, install the request route and the popup listener, then create
the first page. -/
def acqEvents (sid : Nat) : List Ev :=
  [Ev.pwStart sid, Ev.browserLaunch sid, Ev.contextNew sid,
   Ev.routeInstall sid, Ev.popupListenerInstall sid, Ev.pageNew sid]

/-- Embedding of `get_playwright_page` (`scraper.py` lines 47-93): returns
the events that occurred and whether the call returned handles to the
caller (`false` means the injected step raised and the exception
propagated to the caller with no handles assigned). -/
def get_playwright_page (sid : Nat) : Option AcqFail → List Ev × Bool
  | some AcqFail.atStart => ([], false)
  | some AcqFail.atLaunch => ([Ev.pwStart sid], false)
  | some AcqFail.atNewContext => ([Ev.pwStart sid, Ev.browserLaunch sid], false)
  | some AcqFail.atRoute =>
      ([Ev.pwStart sid, Ev.browserLaunch sid, Ev.contextNew sid], false)
  | some AcqFail.atNewPage =>
      ([Ev.pwStart sid, Ev.browserLaunch sid, Ev.contextNew sid,
        Ev.routeInstall sid, Ev.popupListenerInstall sid], false)
  | none => (acqEvents sid, true)

/-- Embedding of `close_playwright_resources` (`scraper.py` lines 95-115):
closes the context then the browser, each best-effort with errors logged
and swallowed; the commented-out driver stop is never executed. -/
def close_playwright_resources (sid : Nat) : List Ev :=
  [Ev.contextClose sid, Ev.browserClose sid]

/-- Failure-injection environment for the single-session operations
`get_movie_source_websites` and `get_movie_download_options`: an optional
failure inside acquisition, and an optional exception raised by the body
between acquisition and the `finally` block. -/
structure SimpleEnv where
  acqFail : Option AcqFail
  bodyErr : Option PyErr
deriving DecidableEq

/-- The placeholder source-site list of `get_movie_source_websites`
(`scraper.py` lines 142-145). -/
def dummySourceSites : List String :=
  ["https://dummy-movie-site-alpha.com", "https://dummy-movie-site-beta.com"]

/-- Embedding of `get_movie_source_websites` (`scraper.py` lines 118-158).
If acquisition raises, the `except` clause catches it and the `finally`
clause finds both local variables unassigned (`None`), so nothing is
closed.  Otherwise the body either raises (caught, empty result) or
produces the placeholder list, and the `finally` clause closes context and
browser.  The driver stop on line 155 requires `playwright and not
browser`, which no path reaches. -/
def get_movie_source_websites (env : SimpleEnv) : List String × List Ev :=
  match get_playwright_page 0 env.acqFail with
  | (tr, false) => ([], tr)
  | (tr, true) =>
    match env.bodyErr with
    | some _ => ([], tr ++ close_playwright_resources 0)
    | none => (dummySourceSites, tr ++ close_playwright_resources 0)

/-- A download option scraped from a detail page: quality, language and
the URL that triggers the download flow. -/
structure DownloadOption where
  quality : String
  language : String
  download_trigger_url : String
deriving DecidableEq

/-- The placeholder option lists of `get_movie_download_options`
(`scraper.py` lines 312-320), keyed on substrings of `source_site`. -/
def dummyDownloadOptions (detailPageUrl sourceSite : String) : List DownloadOption :=
  if containsSub sourceSite "dummy-movie-site-alpha" then
    [⟨"720p", "English", detailPageUrl ++ "/download?q=720&l=eng"⟩,
     ⟨"1080p", "Dual Audio", detailPageUrl ++ "/download?q=1080&l=dual"⟩]
  else if containsSub sourceSite "dummy-movie-site-beta" then
    [⟨"1080p", "English", detailPageUrl ++ "/getlink?res=1080p"⟩]
  else []

/-- Embedding of `get_movie_download_options` (`scraper.py` lines
287-332): same session/exception structure as source discovery, with the
placeholder options as the successful body's result. -/
def get_movie_download_options (detailPageUrl sourceSite : String)
    (env : SimpleEnv) : List DownloadOption × List Ev :=
  match get_playwright_page 0 env.acqFail with
  | (tr, false) => ([], tr)
  | (tr, true) =>
    match env.bodyErr with
    | some _ => ([], tr ++ close_playwright_resources 0)
    | none => (dummyDownloadOptions detailPageUrl sourceSite,
               tr ++ close_playwright_resources 0)

/-- Count the events of a trace satisfying a predicate. -/
def countEv (tr : List Ev) (p : Ev → Bool) : Nat :=
  (tr.filter p).length

/-- Recognizer for browser-launch events. -/
def Ev.isBrowserLaunch : Ev → Bool
  | Ev.browserLaunch _ => true
  | _ => false

/-- Recognizer for browser-close events. -/
def Ev.isBrowserClose : Ev → Bool
  | Ev.browserClose _ => true
  | _ => false

/-- Recognizer for context-creation events. -/
def Ev.isContextNew : Ev → Bool
  | Ev.contextNew _ => true
  | _ => false

/-- Recognizer for context-close events. -/
def Ev.isContextClose : Ev → Bool
  | Ev.contextClose _ => true
  | _ => false

/-- Recognizer for retry-loop iteration markers. -/
def Ev.isAttemptStart : Ev → Bool
  | Ev.attemptStart _ => true
  | _ => false

/-- A search result scraped from a source site (`scraper.py` line 165). -/
structure SearchResult where
  title : String
  poster_url : String
  detail_page_url : String
  source_site : String
deriving DecidableEq

/-- The placeholder scrape step of `search_movie_on_site` (`scraper.py`
lines 244-261): results are a function of the site URL and the query. -/
def dummySearchResults (siteUrl movieName : String) : List SearchResult :=
  if containsSub siteUrl "dummy-movie-site-alpha" then
    [{ title := movieName ++ " - Result 1 (Alpha Site)",
       poster_url := "https://via.placeholder.com/150x220.png?text="
         ++ movieName.replace " " "+" ++ "+1",
       detail_page_url := siteUrl ++ "/movie/"
         ++ (movieName.replace " " "-").toLower ++ "-details-1",
       source_site := siteUrl }]
  else if containsSub siteUrl "dummy-movie-site-beta" then
    [{ title := movieName ++ " - Result (Beta Site)",
       poster_url := "https://via.placeholder.com/150x220.png?text="
         ++ movieName.replace " " "+" ++ "+Beta",
       detail_page_url := siteUrl ++ "/view/"
         ++ (movieName.replace " " "_").toLower,
       source_site := siteUrl }]
  else []

/-- The bounded retry count of `search_movie_on_site` (`scraper.py` line
171): one retry beyond the first attempt. -/
def max_retries : Nat := 1

/-- How one iteration of the search retry loop unfolds: acquisition
raises, the navigate/fill/submit body raises, or the attempt reaches the
post-submit URL check with the given current page URL. -/
inductive AttemptKind
  | acqFailed (f : AcqFail)
  | bodyErr (e : PyErr)
  | finish (currentUrl : String)
deriving DecidableEq

/-- True when the iteration's acquisition returned handles. -/
def AttemptKind.acqOk : AttemptKind → Bool
  | AttemptKind.acqFailed _ => false
  | _ => true

/-- True when the iteration raised (either during acquisition or in the
body) rather than reaching the scrape step. -/
def AttemptKind.isErr : AttemptKind → Bool
  | AttemptKind.finish _ => false
  | _ => true

/-- Failure-injection environment for `search_movie_on_site`: the
behavior of each of the (at most two) retry-loop iterations. -/
structure SearchEnv where
  a0 : AttemptKind
  a1 : AttemptKind
deriving DecidableEq

/-- The ad-redirect test of `search_movie_on_site` (`scraper.py` line
230): `site_url not in current_url and not
current_url.startswith(site_url) and attempt < max_retries`.  The
comparison is substring containment of the original site URL in the
current URL, not an origin comparison. -/
def redirectCond (siteUrl curUrl : String) (attempt : Nat) : Bool :=
  !(containsSub curUrl siteUrl) && !(startsWithStr curUrl siteUrl)
    && decide (attempt < max_retries)

/-- The final iteration of the search retry loop (no retry budget left):
an exception breaks out with whatever was scraped so far (nothing), a
completed attempt scrapes the placeholder results; in both cases the
session closed by line 280 when acquisition had succeeded.  The URL check
cannot retry because `attempt < max_retries` fails. -/
def lastAttempt (siteUrl movieName : String) (sid : Nat) :
    AttemptKind → List SearchResult × List Ev
  | AttemptKind.acqFailed f =>
      ([], Ev.attemptStart sid :: (get_playwright_page sid (some f)).1)
  | AttemptKind.bodyErr _ =>
      ([], Ev.attemptStart sid :: (acqEvents sid ++ close_playwright_resources sid))
  | AttemptKind.finish _ =>
      (dummySearchResults siteUrl movieName,
       Ev.attemptStart sid :: (acqEvents sid ++ close_playwright_resources sid))

/-- Embedding of `search_movie_on_site` (`scraper.py` lines 161-284).
Attempt 0: if acquisition raises, the retry branch finds `browser = None`
and retries without closing anything; if the body raises, or the URL check
fires, or the scrape yields no results, the session is closed (line 273 or
line 232) and the loop retries; if the scrape yields results the loop
breaks and line 280 closes the session.  Attempt 1 is `lastAttempt`.  The
driver stop on line 281 requires `playwright and not browser`, which no
path reaches, and a retried iteration's driver is abandoned without a
stop (lines 233-234, 274-275). -/
def search_movie_on_site (siteUrl movieName : String) (env : SearchEnv) :
    List SearchResult × List Ev :=
  match env.a0 with
  | AttemptKind.acqFailed f =>
      let r := lastAttempt siteUrl movieName 1 env.a1
      (r.1, (Ev.attemptStart 0 :: (get_playwright_page 0 (some f)).1) ++ r.2)
  | AttemptKind.bodyErr _ =>
      let r := lastAttempt siteUrl movieName 1 env.a1
      (r.1, (Ev.attemptStart 0 :: (acqEvents 0 ++ close_playwright_resources 0)) ++ r.2)
  | AttemptKind.finish curUrl =>
      if redirectCond siteUrl curUrl 0 then
        let r := lastAttempt siteUrl movieName 1 env.a1
        (r.1, (Ev.attemptStart 0 :: (acqEvents 0 ++ close_playwright_resources 0)) ++ r.2)
      else
        let res := dummySearchResults siteUrl movieName
        if res.isEmpty then
          let r := lastAttempt siteUrl movieName 1 env.a1
          (r.1, (Ev.attemptStart 0 :: (acqEvents 0 ++ close_playwright_resources 0)) ++ r.2)
        else
          (res, Ev.attemptStart 0 :: (acqEvents 0 ++ close_playwright_resources 0))

/-- Split a character list on the slash character (helper for the
spec-side origin computation). -/
def splitSlash : List Char → List (List Char)
  | [] => [[]]
  | c :: cs =>
    let r := splitSlash cs
    if c = '/' then [] :: r
    else
      match r with
      | [] => [[c]]
      | h :: t => (c :: h) :: t

/-- Spec-side definition, following the spec's words rather than the
source: the origin of a URL (scheme plus host), the comparison the spec
prescribes for redirect detection.  Written only to be compared against
the source's substring-based `redirectCond`. -/
def urlOrigin (u : String) : String :=
  match splitSlash u.data with
  | scheme :: _ :: host :: _ => String.mk scheme ++ "//" ++ String.mk host
  | _ => u

/-- A server identifier of the resolution table: either a literal
text/attribute match or a case-insensitive regular expression. -/
inductive Identifier
  | lit (s : String)
  | regex (s : String)
deriving DecidableEq

/-- A named priority tier of server candidates. -/
structure ServerTier where
  name : String
  identifiers : List Identifier
deriving DecidableEq

/-- The static `server_priority` table of `get_final_vcloud_download_link`
(`scraper.py` lines 347-351), verbatim. -/
def server_priority : List ServerTier :=
  [⟨"Server One",
    [Identifier.lit "Server One", Identifier.lit "VCloud Server 1",
     Identifier.lit "server-one-button", Identifier.regex "server\\s*1"]⟩,
   ⟨"FSL Server",
    [Identifier.lit "FSL Server", Identifier.lit "Fast Server Link",
     Identifier.lit "fsl-server-link", Identifier.regex "fsl"]⟩,
   ⟨"10 Gbps Server",
    [Identifier.lit "10 Gbps Server", Identifier.lit "10Gbps Speed",
     Identifier.lit "high-speed-server", Identifier.regex "10\\s*gbps"]⟩]

/-- Number of identifiers of tier `i` of the priority table. -/
def identCount (i : Nat) : Nat :=
  ((server_priority.map fun t => t.identifiers.length).getD i 0)

/-- The inner identifier loop of the tier search (`scraper.py` lines
371-452): examine each identifier of tier `t` in listed order, starting
at index `j`; `findLink t j` abstracts the whole per-identifier attempt
(locate a visible element, read its attribute, click, inspect the focused
page), whose internal exceptions are caught by the per-identifier
`except` clauses and amount to "this identifier yielded nothing".  The
loop stops at the first identifier that yields a link (`break` under
`if final_link`). -/
def searchIdents (findLink : Nat → Nat → Option String) (t : Nat) :
    List Identifier → Nat → Option String × List Ev
  | [], _ => (none, [])
  | _ :: rest, j =>
    match findLink t j with
    | some l => (some l, [Ev.examine t j])
    | none =>
      let r := searchIdents findLink t rest (j + 1)
      (r.1, Ev.examine t j :: r.2)

/-- The outer tier loop of the tier search (`scraper.py` lines 369-453):
tiers in priority order, stopping at the first tier whose identifier
search yields a link (`if final_link: break`). -/
def searchTiers (findLink : Nat → Nat → Option String) :
    List ServerTier → Nat → Option String × List Ev
  | [], _ => (none, [])
  | tier :: rest, t =>
    match searchIdents findLink t tier.identifiers 0 with
    | (some l, tr) => (some l, tr)
    | (none, tr) =>
      let r := searchTiers findLink rest (t + 1)
      (r.1, tr ++ r.2)

/-- Failure-injection environment for `get_final_vcloud_download_link`:
an optional acquisition failure, an optional exception from the initial
navigation/dwell (`page.goto` or `wait_for_timeout`, lines 355-356), and
the abstracted outcome of each (tier, identifier) attempt. -/
structure ResolveEnv where
  acqFail : Option AcqFail
  navErr : Option PyErr
  findLink : Nat → Nat → Option String

/-- Embedding of `get_final_vcloud_download_link` (`scraper.py` lines
335-474).  An acquisition failure is caught with nothing to close; a
navigation failure jumps to `except`, skipping both the tier search and
the dummy fallback, and `finally` closes the session; otherwise the tier
search runs, and when it yields nothing the placeholder fallback (lines
456-459) synthesizes a link for source sites containing
"dummy-movie-site" or "example.com". -/
def get_final_vcloud_download_link (triggerUrl sourceSite : String)
    (env : ResolveEnv) : Option String × List Ev :=
  match get_playwright_page 0 env.acqFail with
  | (tr, false) => (none, tr)
  | (tr, true) =>
    match env.navErr with
    | some _ => (none, tr ++ close_playwright_resources 0)
    | none =>
      let r := searchTiers env.findLink server_priority 0
      let final_link :=
        match r.1 with
        | some l => some l
        | none =>
          if containsSub sourceSite "dummy-movie-site"
              || containsSub sourceSite "example.com" then
            some (triggerUrl ++ "/final_vcloud_link_server1_dummy.mp4")
          else
            none
      (final_link, tr ++ r.2 ++ close_playwright_resources 0)

/-- Tier `i` of the priority table has an identifier whose attempt yields
a usable link under the given environment. -/
def TierYields (findLink : Nat → Nat → Option String) (i : Nat) : Prop :=
  ∃ j, j < identCount i ∧ (findLink i j).isSome

theorem searchIdents_mem_tier (fL : Nat → Nat → Option String) (t : Nat) :
    ∀ (idents : List Identifier) (j : Nat) (e : Ev),
      e ∈ (searchIdents fL t idents j).2 →
      ∃ b, e = Ev.examine t b ∧ j ≤ b ∧ b < j + idents.length
  | [], j, e => by simp [searchIdents]
  | ident :: rest, j, e => by
    cases h : fL t j with
    | some l =>
      simp only [searchIdents, h, List.mem_singleton]
      intro he
      exact ⟨j, he, le_refl j, by simp⟩
    | none =>
      simp only [searchIdents, h, List.mem_cons]
      intro he
      cases he with
      | inl he => exact ⟨j, he, le_refl j, by simp⟩
      | inr he =>
        obtain ⟨b, hb, hjb, hlt⟩ := searchIdents_mem_tier fL t rest (j + 1) e he
        refine ⟨b, hb, by omega, ?_⟩
        simp only [List.length_cons] at hlt ⊢
        omega

theorem searchIdents_none_iff (fL : Nat → Nat → Option String) (t : Nat) :
    ∀ (idents : List Identifier) (j : Nat),
      (searchIdents fL t idents j).1 = none ↔
        ∀ k, k < idents.length → fL t (j + k) = none
  | [], j => by simp [searchIdents]
  | ident :: rest, j => by
    cases h : fL t j with
    | some l =>
      simp only [searchIdents, h]
      constructor
      · intro hc
        cases hc
      · intro hall
        have := hall 0 (by simp)
        simp [h] at this
    | none =>
      simp only [searchIdents, h]
      rw [searchIdents_none_iff fL t rest (j + 1)]
      constructor
      · intro hall k hk
        match k with
        | 0 => simpa using h
        | k + 1 =>
          have := hall k (by simpa using hk)
          simpa [Nat.add_assoc, Nat.add_comm 1 k] using this
      · intro hall k hk
        have := hall (k + 1) (by simpa using hk)
        simpa [Nat.add_assoc, Nat.add_comm 1 k] using this

theorem searchIdents_head_mem (fL : Nat → Nat → Option String) (t : Nat)
    (ident : Identifier) (rest : List Identifier) (j : Nat) :
    Ev.examine t j ∈ (searchIdents fL t (ident :: rest) j).2 := by
  cases h : fL t j with
  | some l => simp [searchIdents, h]
  | none => simp [searchIdents, h]

theorem searchIdents_cut (fL : Nat → Nat → Option String) (t : Nat) :
    ∀ (idents : List Identifier) (j b b' : Nat),
      Ev.examine t b ∈ (searchIdents fL t idents j).2 →
      (fL t b).isSome → b < b' →
      Ev.examine t b' ∉ (searchIdents fL t idents j).2
  | [], j, b, b' => by simp [searchIdents]
  | ident :: rest, j, b, b' => by
    intro hmem hsome hlt
    cases h : fL t j with
    | some l =>
      simp only [searchIdents, h, List.mem_singleton] at hmem ⊢
      have hb : b = j := by
        have := hmem
        simp only [Ev.examine.injEq] at this
        exact this.2
      intro hc
      simp only [Ev.examine.injEq] at hc
      omega
    | none =>
      simp only [searchIdents, h, List.mem_cons] at hmem ⊢
      cases hmem with
      | inl hmem =>
        simp only [Ev.examine.injEq] at hmem
        rw [hmem.2] at hsome
        simp [h] at hsome
      | inr hmem =>
        have hb : j + 1 ≤ b := by
          obtain ⟨c, hc, hjc, _⟩ := searchIdents_mem_tier fL t rest (j + 1) _ hmem
          simp only [Ev.examine.injEq] at hc
          omega
        rintro (hc | hc)
        · simp only [Ev.examine.injEq] at hc
          omega
        · exact searchIdents_cut fL t rest (j + 1) b b' hmem hsome hlt hc

theorem searchTiers_mem (fL : Nat → Nat → Option String) :
    ∀ (tiers : List ServerTier) (t : Nat) (e : Ev),
      e ∈ (searchTiers fL tiers t).2 →
      ∃ a b tier, e = Ev.examine a b ∧ t ≤ a ∧
        tiers.get? (a - t) = some tier ∧ b < tier.identifiers.length
  | [], t, e => by simp [searchTiers]
  | tier :: rest, t, e => by
    intro hmem
    cases h : searchIdents fL t tier.identifiers 0 with
    | mk r tr =>
      cases r with
      | some l =>
        rw [searchTiers, h] at hmem
        obtain ⟨b, hb, _, hlt⟩ := searchIdents_mem_tier fL t tier.identifiers 0 e (by rw [h]; exact hmem)
        exact ⟨t, b, tier, hb, le_refl t, by simp, by simpa using hlt⟩
      | none =>
        rw [searchTiers, h] at hmem
        simp only [List.mem_append] at hmem
        cases hmem with
        | inl hmem =>
          obtain ⟨b, hb, _, hlt⟩ := searchIdents_mem_tier fL t tier.identifiers 0 e (by rw [h]; exact hmem)
          exact ⟨t, b, tier, hb, le_refl t, by simp, by simpa using hlt⟩
        | inr hmem =>
          obtain ⟨a, b, tier', hb, hta, hget, hlt⟩ := searchTiers_mem fL rest (t + 1) e hmem
          refine ⟨a, b, tier', hb, by omega, ?_, hlt⟩
          obtain ⟨n, hn, hn'⟩ : ∃ n, a - t = n + 1 ∧ a - (t + 1) = n := ⟨a - (t + 1), by omega, rfl⟩
          rw [hn, List.get?_cons_succ, ← hn']
          exact hget

theorem searchTiers_passed (fL : Nat → Nat → Option String) :
    ∀ (tiers : List ServerTier) (t a b : Nat),
      Ev.examine a b ∈ (searchTiers fL tiers t).2 →
      ∀ i tierI, t ≤ i → i < a → tiers.get? (i - t) = some tierI →
      ∀ k, k < tierI.identifiers.length → fL i k = none
  | [], t, a, b => by simp [searchTiers]
  | tier :: rest, t, a, b => by
    intro hmem i tierI hti hia hget k hk
    cases h : searchIdents fL t tier.identifiers 0 with
    | mk r tr =>
      cases r with
      | some l =>
        rw [searchTiers, h] at hmem
        obtain ⟨c, hc, _, _⟩ := searchIdents_mem_tier fL t tier.identifiers 0 _ (by rw [h]; exact hmem)
        simp only [Ev.examine.injEq] at hc
        omega
      | none =>
        rw [searchTiers, h] at hmem
        simp only [List.mem_append] at hmem
        cases hmem with
        | inl hmem =>
          obtain ⟨c, hc, _, _⟩ := searchIdents_mem_tier fL t tier.identifiers 0 _ (by rw [h]; exact hmem)
          simp only [Ev.examine.injEq] at hc
          omega
        | inr hmem =>
          rcases Nat.eq_or_lt_of_le hti with heq | hgt
          · subst heq
            simp only [Nat.sub_self, List.get?_cons_zero, Option.some.injEq] at hget
            subst hget
            have hnone : (searchIdents fL t tier.identifiers 0).1 = none := by rw [h]
            have := (searchIdents_none_iff fL t tier.identifiers 0).1 hnone k hk
            simpa using this
          · obtain ⟨n, hn, hn'⟩ : ∃ n, i - t = n + 1 ∧ i - (t + 1) = n := ⟨i - (t + 1), by omega, rfl⟩
            rw [hn, List.get?_cons_succ, ← hn'] at hget
            exact searchTiers_passed fL rest (t + 1) a b hmem i tierI (by omega) hia hget k hk

theorem searchTiers_skip (fL : Nat → Nat → Option String)
    (tier : ServerTier) (rest : List ServerTier) (t : Nat)
    (hall : ∀ k, k < tier.identifiers.length → fL t k = none) :
    (searchTiers fL (tier :: rest) t).1 = (searchTiers fL rest (t + 1)).1 ∧
    ∀ e, e ∈ (searchTiers fL rest (t + 1)).2 → e ∈ (searchTiers fL (tier :: rest) t).2 := by
  have hnone : (searchIdents fL t tier.identifiers 0).1 = none := by
    rw [searchIdents_none_iff]
    intro k hk
    simpa using hall k hk
  cases h : searchIdents fL t tier.identifiers 0 with
  | mk r tr =>
    rw [h] at hnone
    simp only at hnone
    subst hnone
    rw [searchTiers, h]
    exact ⟨rfl, fun e he => by simp [he]⟩

theorem searchTiers_head_mem (fL : Nat → Nat → Option String)
    (tier : ServerTier) (rest : List ServerTier) (t : Nat)
    (hne : tier.identifiers ≠ []) :
    Ev.examine t 0 ∈ (searchTiers fL (tier :: rest) t).2 := by
  obtain ⟨ident, idrest, hid⟩ : ∃ x xs, tier.identifiers = x :: xs := by
    cases hi : tier.identifiers with
    | nil => exact absurd hi hne
    | cons x xs => exact ⟨x, xs, rfl⟩
  have hhead := searchIdents_head_mem fL t ident idrest 0
  rw [← hid] at hhead
  cases h : searchIdents fL t tier.identifiers 0 with
  | mk r tr =>
    cases r with
    | some l =>
      rw [searchTiers, h]
      rw [h] at hhead
      exact hhead
    | none =>
      rw [searchTiers, h]
      rw [h] at hhead
      simp only [List.mem_append]
      exact Or.inl hhead

theorem searchTiers_cut (fL : Nat → Nat → Option String) :
    ∀ (tiers : List ServerTier) (t a b a' b' : Nat),
      Ev.examine a b ∈ (searchTiers fL tiers t).2 →
      (fL a b).isSome →
      (a < a' ∨ (a = a' ∧ b < b')) →
      Ev.examine a' b' ∉ (searchTiers fL tiers t).2
  | [], t, a, b, a', b' => by simp [searchTiers]
  | tier :: rest, t, a, b, a', b' => by
    intro hmem hsome hord
    cases h : searchIdents fL t tier.identifiers 0 with
    | mk r tr =>
      cases r with
      | some l =>
        rw [searchTiers, h] at hmem ⊢
        have hat : a = t := by
          obtain ⟨c, hc, _, _⟩ := searchIdents_mem_tier fL t tier.identifiers 0 _ (by rw [h]; exact hmem)
          simp only [Ev.examine.injEq] at hc
          omega
        intro hc
        obtain ⟨c, hc', _, _⟩ := searchIdents_mem_tier fL t tier.identifiers 0 _ (by rw [h]; exact hc)
        simp only [Ev.examine.injEq] at hc'
        rcases hord with hlt | ⟨heq, hlt⟩
        · omega
        · subst heq
          have hmem' : Ev.examine a b ∈ (searchIdents fL t tier.identifiers 0).2 := by
            rw [h]; exact hmem
          have hc'' : Ev.examine a b' ∈ (searchIdents fL t tier.identifiers 0).2 := by
            rw [h]; exact hc
          exact searchIdents_cut fL t tier.identifiers 0 b b'
            (by rw [← hat] at hmem' ⊢; exact hat ▸ hmem') (hat ▸ hsome) hlt
            (by rw [← hat] at hc''; exact hat ▸ hc'')
      | none =>
        rw [searchTiers, h] at hmem ⊢
        simp only [List.mem_append] at hmem ⊢
        have hmem' : Ev.examine a b ∈ (searchTiers fL rest (t + 1)).2 := by
          cases hmem with
          | inl hmem =>
            obtain ⟨c, hc, _, hlt⟩ := searchIdents_mem_tier fL t tier.identifiers 0 _ (by rw [h]; exact hmem)
            simp only [Ev.examine.injEq] at hc
            have hnone : (searchIdents fL t tier.identifiers 0).1 = none := by rw [h]
            have h0 : fL t c = none := by
              simpa using (searchIdents_none_iff fL t tier.identifiers 0).1 hnone c (by simpa using hlt)
            rw [hc.1, hc.2, h0] at hsome
            simp at hsome
          | inr hmem => exact hmem
        have hta : t + 1 ≤ a := by
          obtain ⟨x, y, tier', hxy, hle, _, _⟩ := searchTiers_mem fL rest (t + 1) _ hmem'
          simp only [Ev.examine.injEq] at hxy
          omega
        rintro (hc | hc)
        · obtain ⟨c, hc', _, _⟩ := searchIdents_mem_tier fL t tier.identifiers 0 _ (by rw [h]; exact hc)
          simp only [Ev.examine.injEq] at hc'
          rcases hord with hlt | ⟨heq, hlt⟩ <;> omega
        · exact searchTiers_cut fL rest (t + 1) a b a' b' hmem' hsome hord hc

theorem searchTiers_reach (fL : Nat → Nat → Option String) :
    ∀ (tiers : List ServerTier) (d t : Nat) (tierD : ServerTier),
      tiers.get? d = some tierD → tierD.identifiers ≠ [] →
      (∀ i, i < d → ∀ tierI, tiers.get? i = some tierI →
        ∀ k, k < tierI.identifiers.length → fL (t + i) k = none) →
      Ev.examine (t + d) 0 ∈ (searchTiers fL tiers t).2
  | [], d, t, tierD => by
    intro h
    simp at h
  | tier :: rest, d, t, tierD => by
    intro hget hne hall
    match d with
    | 0 =>
      simp only [List.get?_cons_zero, Option.some.injEq] at hget
      subst hget
      simpa using searchTiers_head_mem fL tier rest t hne
    | d + 1 =>
      rw [List.get?_cons_succ] at hget
      have hall0 : ∀ k, k < tier.identifiers.length → fL t k = none := by
        intro k hk
        simpa using hall 0 (by omega) tier (by simp) k hk
      have hskip := searchTiers_skip fL tier rest t hall0
      apply hskip.2
      have hallrest : ∀ i, i < d → ∀ tierI, rest.get? i = some tierI →
          ∀ k, k < tierI.identifiers.length → fL (t + 1 + i) k = none := by
        intro i hi tierI hgi k hk
        have := hall (i + 1) (by omega) tierI (by rw [List.get?_cons_succ]; exact hgi) k hk
        simpa [Nat.add_assoc, Nat.add_comm 1 i] using this
      have := searchTiers_reach fL rest d (t + 1) tierD hget hne hallrest
      simpa [Nat.add_assoc, Nat.add_comm 1 d] using this

theorem identCount_zero_of_ge (i : Nat) (hi : 3 ≤ i) : identCount i = 0 := by
  unfold identCount
  apply List.getD_eq_default
  simpa [server_priority] using hi

theorem server_priority_get (i : Nat) (hi : i < 3) :
    ∃ tierI, server_priority.get? i = some tierI ∧
      tierI.identifiers.length = identCount i ∧ tierI.identifiers ≠ [] := by
  interval_cases i
  · exact ⟨_, rfl, by decide, by decide⟩
  · exact ⟨_, rfl, by decide, by decide⟩
  · exact ⟨_, rfl, by decide, by decide⟩

theorem resolve_examine_iff (triggerUrl sourceSite : String) (env : ResolveEnv)
    (hacq : env.acqFail = none) (hnav : env.navErr = none) (a b : Nat) :
    (Ev.examine a b ∈ (get_final_vcloud_download_link triggerUrl sourceSite env).2 ↔
      Ev.examine a b ∈ (searchTiers env.findLink server_priority 0).2) := by
  unfold get_final_vcloud_download_link
  rw [hacq, hnav]
  simp [get_playwright_page, acqEvents, close_playwright_resources]

/-- Claim C1: in every resolution run of `get_final_vcloud_download_link`
that reaches the tier search, the ServerCandidate tiers are examined
strictly in the static priority order "Server One", "FSL Server",
"10 Gbps Server": (1) if some identifier of tier `i` yields a usable
link, no identifier of any tier after `i` is ever examined; (2) a tier is
examined whenever every earlier tier yields nothing; (3) the first
(tier, identifier) pair that yields a usable link terminates the search —
no later pair in the priority order is examined after it. -/
theorem resolve_tier_priority (triggerUrl sourceSite : String) (env : ResolveEnv)
    (hacq : env.acqFail = none) (hnav : env.navErr = none) :
    (∀ i, TierYields env.findLink i →
      ∀ a b, Ev.examine a b ∈ (get_final_vcloud_download_link triggerUrl sourceSite env).2 →
        a ≤ i) ∧
    (∀ t, t < server_priority.length →
      (∀ i, i < t → ¬ TierYields env.findLink i) →
      ∃ j, Ev.examine t j ∈ (get_final_vcloud_download_link triggerUrl sourceSite env).2) ∧
    (∀ a b a' b',
      Ev.examine a b ∈ (get_final_vcloud_download_link triggerUrl sourceSite env).2 →
      (env.findLink a b).isSome → (a < a' ∨ (a = a' ∧ b < b')) →
      Ev.examine a' b' ∉ (get_final_vcloud_download_link triggerUrl sourceSite env).2) := by
  have hyield_none : ∀ i, ¬ TierYields env.findLink i →
      ∀ k, k < identCount i → env.findLink i k = none := by
    intro i hni k hk
    by_contra hne
    exact hni ⟨k, hk, Option.ne_none_iff_isSome.mp hne⟩
  refine ⟨?_, ?_, ?_⟩
  · intro i hy a b hmem
    rw [resolve_examine_iff _ _ _ hacq hnav] at hmem
    by_contra hgt
    push_neg at hgt
    obtain ⟨j, hj, hs⟩ := hy
    have hi3 : i < 3 := by
      by_contra h3
      push_neg at h3
      rw [identCount_zero_of_ge i h3] at hj
      omega
    obtain ⟨tierI, hget, hlen, _⟩ := server_priority_get i hi3
    have hnone := searchTiers_passed env.findLink server_priority 0 a b hmem i tierI
      (Nat.zero_le i) hgt (by simpa using hget) j (by omega)
    rw [hnone] at hs
    simp at hs
  · intro t ht hno
    refine ⟨0, ?_⟩
    rw [resolve_examine_iff _ _ _ hacq hnav]
    have ht3 : t < 3 := by simpa [server_priority] using ht
    obtain ⟨tierT, hgetT, _, hneT⟩ := server_priority_get t ht3
    have := searchTiers_reach env.findLink server_priority t 0 tierT hgetT hneT ?_
    · simpa using this
    · intro i hi tierI hgi k hk
      obtain ⟨tierI', hgi', hlen', _⟩ := server_priority_get i (by omega)
      rw [hgi'] at hgi
      cases hgi
      simpa using hyield_none i (hno i hi) k (by omega)
  · intro a b a' b' hmem hsome hord
    rw [resolve_examine_iff _ _ _ hacq hnav] at hmem
    intro hc
    rw [resolve_examine_iff _ _ _ hacq hnav] at hc
    exact searchTiers_cut env.findLink server_priority 0 a b a' b' hmem hsome hord hc

/-- Concrete instantiation of `resolve_tier_priority`: in an environment
where no tier yields a link, every earlier tier yields nothing, so part
(2) shows the last tier ("10 Gbps Server") is examined. -/
theorem resolve_tier_priority_witness :
    ∃ j, Ev.examine 2 j ∈
      (get_final_vcloud_download_link "https://trigger.example/dl" "https://site.example"
        { acqFail := none, navErr := none, findLink := fun _ _ => none }).2 :=
  (resolve_tier_priority "https://trigger.example/dl" "https://site.example"
      { acqFail := none, navErr := none, findLink := fun _ _ => none } rfl rfl).2.1 2
    (by decide)
    (fun i _ => by
      rintro ⟨j, _, hs⟩
      simp at hs)

/-- Counterexample to claim C9 as stated: for the placeholder source site
"https://dummy-movie-site-alpha.com" (which contains "dummy-movie-site"),
a timeout of the initial navigation jumps straight to the `except` clause,
skipping the dummy-link fallback, and the call returns an absent result —
so an absent result is possible inside the placeholder families. -/
theorem resolve_dummy_fallback_counterexample :
    containsSub "https://dummy-movie-site-alpha.com" "dummy-movie-site" = true ∧
    (get_final_vcloud_download_link "https://trigger.example/dl"
      "https://dummy-movie-site-alpha.com"
      { acqFail := none, navErr := some PyErr.timeout,
        findLink := fun _ _ => none }).1 = none := by
  constructor
  · rfl
  · rfl

/-- Claim C9 amended: for every trigger URL and every source site
containing "dummy-movie-site" or "example.com", if acquisition and the
initial navigation succeed and the tiered search locates no link,
`get_final_vcloud_download_link` returns the synthetic link
`download_trigger_url + "/final_vcloud_link_server1_dummy.mp4"`; an
absent result for these placeholder families is possible only when
acquisition or navigation raises before the fallback is reached. -/
theorem resolve_dummy_fallback (triggerUrl sourceSite : String) (env : ResolveEnv)
    (hacq : env.acqFail = none) (hnav : env.navErr = none)
    (hfail : (searchTiers env.findLink server_priority 0).1 = none)
    (hdummy : containsSub sourceSite "dummy-movie-site" = true ∨
      containsSub sourceSite "example.com" = true) :
    (get_final_vcloud_download_link triggerUrl sourceSite env).1 =
      some (triggerUrl ++ "/final_vcloud_link_server1_dummy.mp4") := by
  unfold get_final_vcloud_download_link
  rw [hacq, hnav]
  simp only [get_playwright_page]
  rw [hfail]
  have hcond : (containsSub sourceSite "dummy-movie-site"
      || containsSub sourceSite "example.com") = true := by
    rcases hdummy with h | h <;> simp [h]
  simp [hcond]

/-- Concrete instantiation of `resolve_dummy_fallback`: a successful
navigation with no tier yielding a link returns the synthetic dummy
link for an "example.com" source site. -/
theorem resolve_dummy_fallback_witness :
    (get_final_vcloud_download_link "https://trigger.example/dl"
      "https://example.com/page"
      { acqFail := none, navErr := none, findLink := fun _ _ => none }).1 =
      some ("https://trigger.example/dl" ++ "/final_vcloud_link_server1_dummy.mp4") :=
  resolve_dummy_fallback "https://trigger.example/dl" "https://example.com/page"
    { acqFail := none, navErr := none, findLink := fun _ _ => none }
    rfl rfl (by rfl) (Or.inr (by rfl))

/-- Counterexample to claim C2 as stated: the source's redirect test is
substring containment of the original site URL in the current URL, not an
origin comparison.  When an ad redirect lands on
"https://dummy-movie-site-alpha.com.evil-ads.net/landing" — a different
origin than "https://dummy-movie-site-alpha.com" — the current URL starts
with the site URL, so the check does not fire, no session is discarded,
and the search completes in a single attempt. -/
theorem search_redirect_counterexample :
    urlOrigin "https://dummy-movie-site-alpha.com.evil-ads.net/landing" ≠
      urlOrigin "https://dummy-movie-site-alpha.com" ∧
    redirectCond "https://dummy-movie-site-alpha.com"
      "https://dummy-movie-site-alpha.com.evil-ads.net/landing" 0 = false ∧
    countEv (search_movie_on_site "https://dummy-movie-site-alpha.com" "Inception"
      { a0 := AttemptKind.finish "https://dummy-movie-site-alpha.com.evil-ads.net/landing",
        a1 := AttemptKind.finish "https://dummy-movie-site-alpha.com" }).2
      Ev.isAttemptStart = 1 := by
  refine ⟨by decide, by rfl, by rfl⟩

/-- Claim C2 amended: the redirect check of `search_movie_on_site` is by
string containment, not origin comparison: whenever the original siteURL
does not occur as a substring of the current page URL (and a retry
attempt remains), the attempt is treated as an ad redirect — the whole
session (context and browser) is closed, and after a backoff the entire
sequence is retried, with the first attempt's close events preceding
every event of the second attempt, whose scrape produces the returned
results. -/
theorem search_redirect_retry (siteUrl movieName curUrl : String) (a1 : AttemptKind)
    (h : redirectCond siteUrl curUrl 0 = true) :
    (¬ siteUrl.data <:+: curUrl.data) ∧
    search_movie_on_site siteUrl movieName
        { a0 := AttemptKind.finish curUrl, a1 := a1 } =
      ((lastAttempt siteUrl movieName 1 a1).1,
       (Ev.attemptStart 0 :: (acqEvents 0 ++ close_playwright_resources 0))
         ++ (lastAttempt siteUrl movieName 1 a1).2) := by
  constructor
  · have h' := h
    simp only [redirectCond, Bool.and_eq_true, Bool.not_eq_true',
      containsSub, decide_eq_false_iff_not] at h'
    exact h'.1.1
  · unfold search_movie_on_site
    simp [h]

/-- Concrete instantiation of `search_redirect_retry`: a first attempt
landing on "https://ad-lander.biz/p" (which does not contain the site
URL) triggers the retry, and the result comes from the second attempt. -/
theorem search_redirect_retry_witness :
    (¬ ("https://a-site.net" : String).data <:+: ("https://ad-lander.biz/p" : String).data) ∧
    search_movie_on_site "https://a-site.net" "Inception"
        { a0 := AttemptKind.finish "https://ad-lander.biz/p",
          a1 := AttemptKind.finish "https://a-site.net/results" } =
      ((lastAttempt "https://a-site.net" "Inception" 1
          (AttemptKind.finish "https://a-site.net/results")).1,
       (Ev.attemptStart 0 :: (acqEvents 0 ++ close_playwright_resources 0))
         ++ (lastAttempt "https://a-site.net" "Inception" 1
              (AttemptKind.finish "https://a-site.net/results")).2) :=
  search_redirect_retry "https://a-site.net" "Inception" "https://ad-lander.biz/p"
    (AttemptKind.finish "https://a-site.net/results") (by rfl)

theorem countEv_append (t1 t2 : List Ev) (p : Ev → Bool) :
    countEv (t1 ++ t2) p = countEv t1 p + countEv t2 p := by
  simp [countEv, List.filter_append]

theorem countEv_acq_attemptStart (sid : Nat) (f : Option AcqFail) :
    countEv (get_playwright_page sid f).1 Ev.isAttemptStart = 0 := by
  cases f with
  | none => simp [get_playwright_page, acqEvents, countEv, Ev.isAttemptStart]
  | some g => cases g <;> simp [get_playwright_page, countEv, Ev.isAttemptStart]

theorem countEv_lastAttempt_attemptStart (siteUrl movieName : String) (sid : Nat)
    (k : AttemptKind) :
    countEv (lastAttempt siteUrl movieName sid k).2 Ev.isAttemptStart = 1 := by
  cases k with
  | acqFailed f =>
    have := countEv_acq_attemptStart sid (some f)
    simp only [lastAttempt, countEv, List.filter_cons] at this ⊢
    simp only [Ev.isAttemptStart] at this ⊢
    simpa using this
  | bodyErr e =>
    simp [lastAttempt, countEv, List.filter_append, Ev.isAttemptStart, acqEvents,
      close_playwright_resources]
  | finish u =>
    simp [lastAttempt, countEv, List.filter_append, Ev.isAttemptStart, acqEvents,
      close_playwright_resources]

/-- Claim C7: for every site URL, query and environment,
`search_movie_on_site` performs at most two iterations of the
navigate-fill-submit-scrape retry loop (one retry beyond the first
attempt) and returns a (possibly empty) result list; being a total
function of its environment, it terminates on every input. -/
theorem search_attempt_bound (siteUrl movieName : String) (env : SearchEnv) :
    countEv (search_movie_on_site siteUrl movieName env).2 Ev.isAttemptStart ≤ 2 := by
  have hfirst0 : ∀ f : AcqFail,
      countEv (Ev.attemptStart 0 :: (get_playwright_page 0 (some f)).1) Ev.isAttemptStart = 1 := by
    intro f
    have := countEv_acq_attemptStart 0 (some f)
    simp only [countEv, List.filter_cons] at this ⊢
    simp only [Ev.isAttemptStart] at this ⊢
    simpa using this
  have hfirst : countEv (Ev.attemptStart 0 :: (acqEvents 0 ++ close_playwright_resources 0))
      Ev.isAttemptStart = 1 := by
    simp [countEv, List.filter_append, Ev.isAttemptStart, acqEvents,
      close_playwright_resources]
  unfold search_movie_on_site
  cases h0 : env.a0 with
  | acqFailed f =>
    rw [countEv_append, hfirst0 f, countEv_lastAttempt_attemptStart]
  | bodyErr e =>
    rw [countEv_append, hfirst, countEv_lastAttempt_attemptStart]
  | finish curUrl =>
    by_cases hr : redirectCond siteUrl curUrl 0 = true
    · simp only [hr, if_true]
      rw [countEv_append, hfirst, countEv_lastAttempt_attemptStart]
    · simp only [Bool.not_eq_true] at hr
      simp only [hr, Bool.false_eq_true, if_false]
      by_cases he : (dummySearchResults siteUrl movieName).isEmpty = true
      · simp only [he, if_true]
        rw [countEv_append, hfirst, countEv_lastAttempt_attemptStart]
      · simp only [Bool.not_eq_true] at he
        simp only [he, Bool.false_eq_true, if_false]
        rw [hfirst]
        omega

/-- A trace is balanced when every launched browser and every created
context has a matching close event. -/
def balancedTrace (tr : List Ev) : Prop :=
  countEv tr Ev.isBrowserLaunch = countEv tr Ev.isBrowserClose ∧
  countEv tr Ev.isContextNew = countEv tr Ev.isContextClose

theorem balancedTrace_append {t1 t2 : List Ev} (h1 : balancedTrace t1)
    (h2 : balancedTrace t2) : balancedTrace (t1 ++ t2) := by
  unfold balancedTrace at h1 h2 ⊢
  rw [countEv_append, countEv_append, countEv_append, countEv_append]
  omega

theorem balanced_acq_close (sid : Nat) :
    balancedTrace (acqEvents sid ++ close_playwright_resources sid) := by
  unfold balancedTrace
  simp [acqEvents, close_playwright_resources, countEv, List.filter_append,
    Ev.isBrowserLaunch, Ev.isBrowserClose, Ev.isContextNew, Ev.isContextClose]

theorem balancedTrace_cons_attemptStart (n : Nat) (tr : List Ev)
    (h : balancedTrace tr) : balancedTrace (Ev.attemptStart n :: tr) := by
  unfold balancedTrace countEv at h ⊢
  simpa [List.filter_cons, Ev.isBrowserLaunch, Ev.isBrowserClose,
    Ev.isContextNew, Ev.isContextClose] using h

theorem balanced_lastAttempt (siteUrl movieName : String) (sid : Nat)
    (k : AttemptKind) (hk : k.acqOk = true) :
    balancedTrace (lastAttempt siteUrl movieName sid k).2 := by
  cases k with
  | acqFailed f => simp [AttemptKind.acqOk] at hk
  | bodyErr e =>
    exact balancedTrace_cons_attemptStart sid _ (balanced_acq_close sid)
  | finish u =>
    exact balancedTrace_cons_attemptStart sid _ (balanced_acq_close sid)

theorem balanced_searchTiers (fL : Nat → Nat → Option String)
    (tiers : List ServerTier) (t : Nat) :
    balancedTrace (searchTiers fL tiers t).2 := by
  have hnil : ∀ p : Ev → Bool, (∀ a b, p (Ev.examine a b) = false) →
      countEv (searchTiers fL tiers t).2 p = 0 := by
    intro p hp
    have hfil : ((searchTiers fL tiers t).2).filter p = [] := by
      rw [List.filter_eq_nil_iff]
      intro e he
      obtain ⟨a, b, _, hb, _⟩ := searchTiers_mem fL tiers t e he
      simp [hb, hp]
    simp [countEv, hfil]
  unfold balancedTrace
  rw [hnil Ev.isBrowserLaunch (by intro a b; rfl),
    hnil Ev.isBrowserClose (by intro a b; rfl),
    hnil Ev.isContextNew (by intro a b; rfl),
    hnil Ev.isContextClose (by intro a b; rfl)]
  exact ⟨rfl, rfl⟩

theorem balanced_acq_mid_close (sid : Nat) (mid : List Ev)
    (hmid : balancedTrace mid) :
    balancedTrace ((acqEvents sid ++ mid) ++ close_playwright_resources sid) := by
  unfold balancedTrace at hmid ⊢
  rw [countEv_append, countEv_append, countEv_append, countEv_append,
    countEv_append, countEv_append, countEv_append, countEv_append]
  simp [acqEvents, close_playwright_resources, countEv, Ev.isBrowserLaunch,
    Ev.isBrowserClose, Ev.isContextNew, Ev.isContextClose] at hmid ⊢
  omega

/-- Counterexample to claim C3 as stated: when `get_playwright_page`
raises at `browser.new_context` (line 71), the browser has been launched
but the caller's variables are never assigned, so the `finally` clause of
`get_movie_source_websites` closes nothing: the trace holds one browser
launch and zero browser closes, and the launched browser process leaks. -/
theorem resource_cleanup_counterexample :
    countEv (get_movie_source_websites
      { acqFail := some AcqFail.atNewContext, bodyErr := none }).2
      Ev.isBrowserLaunch = 1 ∧
    countEv (get_movie_source_websites
      { acqFail := some AcqFail.atNewContext, bodyErr := none }).2
      Ev.isBrowserClose = 0 := by
  constructor
  · rfl
  · rfl

/-- Claim C3 amended: for each of the four operations, on every exit path
on which session acquisition (`get_playwright_page`) returned
successfully — normal return, timeout, or internal exception afterwards —
every browser launched and every context created during the call is
closed before the call returns (launch and close counts are equal); when
acquisition itself raises partway, the resources it had already acquired
are not released. -/
theorem resource_cleanup_balanced :
    (∀ env : SimpleEnv, env.acqFail = none →
      balancedTrace (get_movie_source_websites env).2) ∧
    (∀ detailPageUrl sourceSite (env : SimpleEnv), env.acqFail = none →
      balancedTrace (get_movie_download_options detailPageUrl sourceSite env).2) ∧
    (∀ triggerUrl sourceSite (env : ResolveEnv), env.acqFail = none →
      balancedTrace (get_final_vcloud_download_link triggerUrl sourceSite env).2) ∧
    (∀ siteUrl movieName (env : SearchEnv),
      env.a0.acqOk = true → env.a1.acqOk = true →
      balancedTrace (search_movie_on_site siteUrl movieName env).2) := by
  refine ⟨?_, ?_, ?_, ?_⟩
  · intro env hacq
    unfold get_movie_source_websites
    rw [hacq]
    cases env.bodyErr <;>
      simpa [get_playwright_page] using balanced_acq_close 0
  · intro detailPageUrl sourceSite env hacq
    unfold get_movie_download_options
    rw [hacq]
    cases env.bodyErr <;>
      simpa [get_playwright_page] using balanced_acq_close 0
  · intro triggerUrl sourceSite env hacq
    unfold get_final_vcloud_download_link
    rw [hacq]
    cases hnav : env.navErr with
    | some e => simpa [get_playwright_page] using balanced_acq_close 0
    | none =>
      show balancedTrace (acqEvents 0 ++ (searchTiers env.findLink server_priority 0).2
        ++ close_playwright_resources 0)
      exact balanced_acq_mid_close 0 _ (balanced_searchTiers env.findLink server_priority 0)
  · intro siteUrl movieName env h0 h1
    unfold search_movie_on_site
    cases hk0 : env.a0 with
    | acqFailed f =>
      rw [hk0] at h0
      simp [AttemptKind.acqOk] at h0
    | bodyErr e =>
      exact balancedTrace_append
        (balancedTrace_cons_attemptStart 0 _ (balanced_acq_close 0))
        (balanced_lastAttempt siteUrl movieName 1 env.a1 h1)
    | finish curUrl =>
      by_cases hr : redirectCond siteUrl curUrl 0 = true
      · simp only [hr, if_true]
        exact balancedTrace_append
          (balancedTrace_cons_attemptStart 0 _ (balanced_acq_close 0))
          (balanced_lastAttempt siteUrl movieName 1 env.a1 h1)
      · simp only [Bool.not_eq_true] at hr
        simp only [hr, Bool.false_eq_true, if_false]
        by_cases he : (dummySearchResults siteUrl movieName).isEmpty = true
        · simp only [he, if_true]
          exact balancedTrace_append
            (balancedTrace_cons_attemptStart 0 _ (balanced_acq_close 0))
            (balanced_lastAttempt siteUrl movieName 1 env.a1 h1)
        · simp only [Bool.not_eq_true] at he
          simp only [he, Bool.false_eq_true, if_false]
          exact balancedTrace_cons_attemptStart 0 _ (balanced_acq_close 0)

/-- Concrete instantiation of `resource_cleanup_balanced`: a source
discovery whose body times out still closes its browser and context. -/
theorem resource_cleanup_balanced_witness :
    balancedTrace (get_movie_source_websites
      { acqFail := none, bodyErr := some PyErr.timeout }).2 :=
  resource_cleanup_balanced.1 { acqFail := none, bodyErr := some PyErr.timeout } rfl

/-- Claim C5: none of the four operations propagates an exception to its
caller (each embedded operation is a total function into a plain result,
every injected exception being absorbed by the embedded `except`
clauses); under any injected timeout or scraping exception,
`get_movie_source_websites` and `get_movie_download_options` return an
empty list, `get_final_vcloud_download_link` returns an absent result,
and `search_movie_on_site` returns an empty list when every attempt
raises. -/
theorem degrade_to_empty :
    (∀ env : SimpleEnv, env.acqFail.isSome ∨ env.bodyErr.isSome →
      (get_movie_source_websites env).1 = []) ∧
    (∀ detailPageUrl sourceSite (env : SimpleEnv),
      env.acqFail.isSome ∨ env.bodyErr.isSome →
      (get_movie_download_options detailPageUrl sourceSite env).1 = []) ∧
    (∀ triggerUrl sourceSite (env : ResolveEnv),
      env.acqFail.isSome ∨ env.navErr.isSome →
      (get_final_vcloud_download_link triggerUrl sourceSite env).1 = none) ∧
    (∀ siteUrl movieName (env : SearchEnv),
      env.a0.isErr = true → env.a1.isErr = true →
      (search_movie_on_site siteUrl movieName env).1 = []) := by
  refine ⟨?_, ?_, ?_, ?_⟩
  · intro env h
    cases hacq : env.acqFail with
    | some f =>
      unfold get_movie_source_websites
      rw [hacq]
      cases f <;> rfl
    | none =>
      cases hbody : env.bodyErr with
      | some e =>
        unfold get_movie_source_websites
        rw [hacq, hbody]
        rfl
      | none =>
        rw [hacq, hbody] at h
        simp at h
  · intro detailPageUrl sourceSite env h
    cases hacq : env.acqFail with
    | some f =>
      unfold get_movie_download_options
      rw [hacq]
      cases f <;> rfl
    | none =>
      cases hbody : env.bodyErr with
      | some e =>
        unfold get_movie_download_options
        rw [hacq, hbody]
        rfl
      | none =>
        rw [hacq, hbody] at h
        simp at h
  · intro triggerUrl sourceSite env h
    cases hacq : env.acqFail with
    | some f =>
      unfold get_final_vcloud_download_link
      rw [hacq]
      cases f <;> rfl
    | none =>
      cases hnav : env.navErr with
      | some e =>
        unfold get_final_vcloud_download_link
        rw [hacq, hnav]
        rfl
      | none =>
        rw [hacq, hnav] at h
        simp at h
  · intro siteUrl movieName env h0 h1
    unfold search_movie_on_site
    cases hk0 : env.a0 with
    | finish u =>
      rw [hk0] at h0
      simp [AttemptKind.isErr] at h0
    | acqFailed f =>
      cases hk1 : env.a1 with
      | finish u =>
        rw [hk1] at h1
        simp [AttemptKind.isErr] at h1
      | acqFailed g => rfl
      | bodyErr e => rfl
    | bodyErr e =>
      cases hk1 : env.a1 with
      | finish u =>
        rw [hk1] at h1
        simp [AttemptKind.isErr] at h1
      | acqFailed g => rfl
      | bodyErr e2 => rfl

/-- Concrete instantiation of `degrade_to_empty`: a source discovery
whose body raises a generic scraping exception returns the empty list. -/
theorem degrade_to_empty_witness :
    (get_movie_source_websites { acqFail := none, bodyErr := some PyErr.generic }).1 = [] :=
  degrade_to_empty.1 { acqFail := none, bodyErr := some PyErr.generic } (Or.inr rfl)

/-- Claim C8: in every `get_playwright_page` call that creates a page,
the request-interception route and the popup listener have been installed
on the browsing context strictly before the first page of the context is
created, so no navigation can occur in a context without its
interception policy and popup handler. -/
theorem interception_before_first_page (sid : Nat) (fail : Option AcqFail)
    (h : Ev.pageNew sid ∈ (get_playwright_page sid fail).1) :
    ∃ pre suf, (get_playwright_page sid fail).1 = pre ++ Ev.pageNew sid :: suf ∧
      Ev.routeInstall sid ∈ pre ∧ Ev.popupListenerInstall sid ∈ pre := by
  cases fail with
  | none =>
    exact ⟨[Ev.pwStart sid, Ev.browserLaunch sid, Ev.contextNew sid,
      Ev.routeInstall sid, Ev.popupListenerInstall sid], [], rfl, by simp, by simp⟩
  | some f => cases f <;> simp [get_playwright_page] at h

/-- Concrete instantiation of `interception_before_first_page` for a
fully successful acquisition. -/
theorem interception_before_first_page_witness :
    ∃ pre suf, (get_playwright_page 0 none).1 = pre ++ Ev.pageNew 0 :: suf ∧
      Ev.routeInstall 0 ∈ pre ∧ Ev.popupListenerInstall 0 ∈ pre :=
  interception_before_first_page 0 none (by decide)

/-- The configured retention period `DATA_EXPIRY_SECONDS` (`config.py`
line 22): two hours. -/
def DATA_EXPIRY_SECONDS : Int := 7200

/-- A per-user record of the session store (`data_manager.py` line 6):
a last-activity timestamp and a string key-value map. -/
structure UserRecord where
  timestamp : Int
  data : List (String × String)
deriving DecidableEq

/-- The in-memory user store `user_search_data`: an insertion-ordered map
from chat id to record, embedded as an association list with distinct
keys (the Python dict guarantees key uniqueness). -/
abbrev Store : Type := List (Nat × UserRecord)

/-- Python dict assignment on the inner `data` map: overwrite the value
in place if the key exists, otherwise append the pair. -/
def setKV : List (String × String) → String → String → List (String × String)
  | [], key, value => [(key, value)]
  | (k, v) :: rest, key, value =>
    if k = key then (key, value) :: rest else (k, v) :: setKV rest key value

/-- Embedding of `store_user_data` (`data_manager.py` lines 11-17): a new
chat id gets a fresh record stamped `now`; an existing chat id has its
timestamp refreshed to `now`; in both cases `data[key] = value`. -/
def store_user_data (store : Store) (now : Int) (chatId : Nat)
    (key value : String) : Store :=
  if store.any (fun p => p.1 == chatId) then
    store.map fun p =>
      if p.1 == chatId then (p.1, ⟨now, setKV p.2.data key value⟩) else p
  else
    store ++ [(chatId, ⟨now, [(key, value)]⟩)]

/-- Embedding of `get_user_data` (`data_manager.py` lines 19-23). -/
def get_user_data (store : Store) (chatId : Nat) (key : String) : Option String :=
  match store.find? (fun p => p.1 == chatId) with
  | some p => (p.2.data.find? (fun kv => kv.1 == key)).map Prod.snd
  | none => none

/-- Embedding of `cleanup_expired_data` (`data_manager.py` lines 32-50):
collect the chat ids whose age `now - timestamp` strictly exceeds
`DATA_EXPIRY_SECONDS`, then delete each collected id from the store. -/
def cleanup_expired_data (store : Store) (now : Int) : Store :=
  let expiredUsers :=
    (store.filter
      (fun p => decide (now - p.2.timestamp > DATA_EXPIRY_SECONDS))).map Prod.fst
  expiredUsers.foldl (fun (s : Store) cid => s.filter (fun p => p.1 != cid)) store

theorem mem_foldl_filter (cids : List Nat) (s : Store) (q : Nat × UserRecord) :
    (q ∈ cids.foldl (fun (s : Store) cid => s.filter (fun p => p.1 != cid)) s ↔
      q ∈ s ∧ ∀ c ∈ cids, q.1 ≠ c) := by
  induction cids generalizing s with
  | nil => simp
  | cons c cs ih =>
    simp only [List.foldl_cons]
    rw [ih]
    simp only [List.mem_filter, bne_iff_ne, ne_eq, List.mem_cons, forall_eq_or_imp]
    tauto

theorem keys_unique (store : Store)
    (hnd : (store.map Prod.fst).Nodup) :
    ∀ cid r r', (cid, r) ∈ store → (cid, r') ∈ store → r = r' := by
  induction store with
  | nil => simp
  | cons p rest ih =>
    simp only [List.map_cons, List.nodup_cons] at hnd
    intro cid r r' hr hr'
    simp only [List.mem_cons] at hr hr'
    rcases hr with hr | hr <;> rcases hr' with hr' | hr'
    · have h12 : (cid, r) = ((cid, r') : Nat × UserRecord) := hr.trans hr'.symm
      exact congrArg Prod.snd h12
    · exfalso
      apply hnd.1
      have hm := List.mem_map_of_mem Prod.fst hr'
      rw [← hr]
      exact hm
    · exfalso
      apply hnd.1
      have hm := List.mem_map_of_mem Prod.fst hr
      rw [← hr']
      exact hm
    · exact ih hnd.2 cid r r' hr hr'

/-- Claim C10: `cleanup_expired_data` keeps exactly the records whose
last-activity timestamp is at most `DATA_EXPIRY_SECONDS` in the past
(removal happens iff `now - timestamp > DATA_EXPIRY_SECONDS`), leaving
every kept record's contents unchanged; and `store_user_data` refreshes
the timestamp of an existing record to the time of the write, so expiry
is measured from the user's last write, not from record creation. -/
theorem cleanup_expired_exact (store : Store) (now : Int)
    (hnd : (store.map Prod.fst).Nodup) :
    (∀ cid r, ((cid, r) ∈ cleanup_expired_data store now ↔
      ((cid, r) ∈ store ∧ now - r.timestamp ≤ DATA_EXPIRY_SECONDS))) ∧
    (∀ cid r key value, (cid, r) ∈ store →
      (cid, (⟨now, setKV r.data key value⟩ : UserRecord)) ∈
        store_user_data store now cid key value) := by
  constructor
  · intro cid r
    simp only [cleanup_expired_data]
    rw [mem_foldl_filter]
    constructor
    · rintro ⟨hmem, hall⟩
      refine ⟨hmem, ?_⟩
      by_contra hgt
      push_neg at hgt
      have hfil : (cid, r) ∈ store.filter
          (fun p => decide (now - p.2.timestamp > DATA_EXPIRY_SECONDS)) := by
        rw [List.mem_filter]
        exact ⟨hmem, by simpa using hgt⟩
      have hin := List.mem_map_of_mem Prod.fst hfil
      exact hall cid hin rfl
    · rintro ⟨hmem, hle⟩
      refine ⟨hmem, ?_⟩
      intro c hc heq
      rw [List.mem_map] at hc
      obtain ⟨p, hpfil, hpfst⟩ := hc
      obtain ⟨p1, p2⟩ := p
      rw [List.mem_filter] at hpfil
      have hexp : now - p2.timestamp > DATA_EXPIRY_SECONDS := by
        simpa using hpfil.2
      have hceq : cid = c := heq
      have hp1 : p1 = cid := by
        simp only at hpfst
        rw [hpfst, hceq]
      have hpmem : (cid, p2) ∈ store := by
        rw [← hp1]
        exact hpfil.1
      have hp2r : p2 = r := keys_unique store hnd cid p2 r hpmem hmem
      rw [hp2r] at hexp
      omega
  · intro cid r key value hmem
    unfold store_user_data
    have hany : store.any (fun p => p.1 == cid) = true := by
      rw [List.any_eq_true]
      exact ⟨(cid, r), hmem, by simp⟩
    simp only [hany, if_true]
    rw [List.mem_map]
    refine ⟨(cid, r), hmem, ?_⟩
    simp

/-- Concrete instantiation of `cleanup_expired_exact`: in a two-user
store swept at time 8000, the record written at time 1000 (age 7000,
within the 7200-second expiry) is kept with its contents unchanged. -/
theorem cleanup_expired_exact_witness :
    ((1, (⟨1000, [("movie", "Dune")]⟩ : UserRecord)) ∈
        cleanup_expired_data
          [(1, ⟨1000, [("movie", "Dune")]⟩), (2, ⟨0, [("movie", "Tenet")]⟩)] 8000 ↔
      ((1, (⟨1000, [("movie", "Dune")]⟩ : UserRecord)) ∈
        ([(1, ⟨1000, [("movie", "Dune")]⟩), (2, ⟨0, [("movie", "Tenet")]⟩)] : Store) ∧
        (8000 : Int) - (1000 : Int) ≤ DATA_EXPIRY_SECONDS)) :=
  (cleanup_expired_exact
      [(1, ⟨1000, [("movie", "Dune")]⟩), (2, ⟨0, [("movie", "Tenet")]⟩)] 8000
      (by decide)).1 1 ⟨1000, [("movie", "Dune")]⟩
